import Mathlib

/-!
Verification development for the eml-to-text-bot repository (Netlify/Slack
webhook functions).  The repository contains several variants of the same
script; definitions below are shallow embeddings of the JavaScript source:

* `_v1` refers to the first section of `netlify/functions/slack-events.js`
  (the toggle-capable variant, lines 1-315);
* `_v2` refers to the second section of that file (lines 316-909, the
  modal variant with the lock/done/processing coordinator);
* `_p2` refers to `src/unnamed/part_002` (the composite diagnostic variant);
* `_p3` refers to `src/unnamed/part_003` (the compact modal variant);
* `_p4` refers to `src/unnamed/part_004` (the Blobs-config variant).

Modelling conventions, used throughout:
* A JavaScript string is a `List Char` (`JStr`).  All strings appearing in
  the program and in the proofs consist of basic-multilingual-plane
  characters, for which JavaScript UTF-16 code units and Lean characters
  coincide, so `.length`, `.slice`, `.take` agree with the JS operations.
* JS falsiness of a string value (`""`, `null`, `undefined`) is modelled by
  the empty list; `a || b` on strings is `jsOrS`.
* The Netlify blob store is an association list; `set` prepends (a later
  write shadows an earlier one, as `lookupA` returns the first match).
* `JSON.stringify`/`JSON.parse` round-trips of values the program itself
  produced are modelled as identities (structured values are stored
  directly).
* External collaborators (HMAC, Slack API responses, file download, mail
  parsing) are parameters of the embedding, carried in `Env` records; an
  operation that can throw is modelled with `Except`/`Bool` outcome flags.
* Logging (`logBlob`/`blog`, behind the `LOG_TO_BLOBS` flag, writing to the
  separate log store) is out of the modelled state, matching the spec's
  scope exclusion of logging setup.
-/

namespace EmlBot

/-- JavaScript string, as a list of (BMP) UTF-16 code units. -/
abbrev JStr := List Char

/-- Embed a Lean string literal as a `JStr`. -/
def jstr (s : String) : JStr := s.data

/-- JS `a || b` for strings: empty (falsy) falls through to `b`. -/
def jsOrS (a b : JStr) : JStr := if a = [] then b else a

/-- JS `a || b` for the numeric config `cfg.MAX_POST_CHARS || 3600`:
`0` is falsy. -/
def jsOrNum (a b : Nat) : Nat := if a = 0 then b else a

/-- Association-list read; first binding wins (most recent `set`). -/
def lookupA {α : Type} : List (JStr × α) → JStr → Option α
  | [], _ => none
  | (k', v) :: rest, k => if k' = k then some v else lookupA rest k

/-- Association-list write: prepend, shadowing earlier bindings. -/
def setA {α : Type} (st : List (JStr × α)) (k : JStr) (v : α) : List (JStr × α) :=
  (k, v) :: st

/-- JS truthiness of the result of a blob-store `get` returning a string. -/
def truthyS (o : Option JStr) : Bool :=
  match o with
  | some s => !s.isEmpty
  | none => false

/-! ## Text utilities shared by the variants -/

/-- JS `txt.replace(/\r\n/g, "\n")`: left-to-right, non-overlapping. -/
def replaceCRLF : JStr → JStr
  | [] => []
  | [c] => [c]
  | c1 :: c2 :: rest =>
    if c1 = '\r' ∧ c2 = '\n' then '\n' :: replaceCRLF rest
    else c1 :: replaceCRLF (c2 :: rest)

/-- JS `txt.replace(/\t/g, "  ")`. -/
def replaceTab : JStr → JStr
  | [] => []
  | c :: rest => if c = '\t' then ' ' :: ' ' :: replaceTab rest else c :: replaceTab rest

/-- JS whitespace recognised by `String.prototype.trim`
(the characters relevant to this program). -/
def isJsWS (c : Char) : Bool :=
  c = ' ' ∨ c = '\t' ∨ c = '\n' ∨ c = '\r' ∨ c.toNat = 11 ∨ c.toNat = 12 ∨
  c.toNat = 160 ∨ c.toNat = 65279

/-- JS `s.trim()`. -/
def trimJs (s : JStr) : JStr :=
  ((s.dropWhile isJsWS).reverse.dropWhile isJsWS).reverse

/-- The cleaning pass of `normalizeText`:
`(txt ?? "").replace(/\r\n/g,"\n").replace(/\t/g,"  ").trim()`. -/
def cleanOf (t : JStr) : JStr := trimJs (replaceTab (replaceCRLF t))

/-- The marker appended by `normalizeText` when the body is cut. -/
def truncNotice : JStr := jstr ("\n…(truncated)")

/-- Function `normalizeText` of variant v1 (lines 73-77), identical to `normalize`
of v2 and p3: cap the cleaned text at `maxP` characters, appending the
truncation marker when cut. -/
def normalizeText (maxP : Nat) (t : JStr) : JStr :=
  let c := cleanOf t
  if c.length ≤ maxP then c else c.take maxP ++ truncNotice

/-- JS `text.split("\n")`. -/
def splitNL : JStr → List JStr
  | [] => [[]]
  | c :: rest =>
    if c = '\n' then [] :: splitNL rest
    else
      match splitNL rest with
      | [] => [[c]]
      | h :: t => (c :: h) :: t

/-- Function `firstLine` (v1 lines 78-81, p3 line 30): first non-blank line,
capped at 120 characters with an ellipsis, `"(no content)"` when empty. -/
def firstLine (t : JStr) : JStr :=
  let line := ((splitNL t).find? (fun s => !(trimJs s).isEmpty)).getD []
  if 120 < line.length then line.take 120 ++ jstr (" …")
  else if line = [] then jstr ("(no content)") else line

def toLowerJs (s : JStr) : JStr := s.map Char.toLower

/-- Function `isSupportedName` (v1 lines 120-123) / `supported` (v2, p3):
name ends in `.eml`, `.msg` or `.oft`, case-insensitively. -/
def isSupportedName (name : JStr) : Bool :=
  let low := toLowerJs name
  (jstr (".eml")).isSuffixOf low || (jstr (".msg")).isSuffixOf low ||
    (jstr (".oft")).isSuffixOf low

/-! ## `chunk` (v2 lines 573-577, p3 line 82)

`function chunk(s,n){ const a=[]; for(let i=0;i<s.length;i+=n)a.push(s.slice(i,i+n)); return a; }`

For `n = 0` and a non-empty `s` the JS loop does not terminate; the
embedding returns `[]` in that case, and every theorem about `chunk`
assumes `0 < n`. -/

def chunk (s : JStr) (n : Nat) : List JStr :=
  if h : n = 0 ∨ s = [] then []
  else s.take n :: chunk (s.drop n) n
termination_by s.length
decreasing_by
  push_neg at h
  simp only [List.length_drop]
  exact Nat.sub_lt (List.length_pos.mpr h.2) (Nat.pos_of_ne_zero h.1)

/-- Boolean form of "every chunk has length at most `n`". -/
def piecesBounded (s : JStr) (n : Nat) : Bool :=
  (chunk s n).all (fun c => decide (c.length ≤ n))

theorem chunk_spec_aux (n : Nat) (hn : 0 < n) :
    ∀ (fuel : Nat) (s : JStr), s.length ≤ fuel →
      (∀ c ∈ chunk s n, c.length ≤ n) ∧ (chunk s n).flatten = s := by
  intro fuel
  induction fuel with
  | zero =>
    intro s hs
    have hsnil : s = [] := List.eq_nil_of_length_eq_zero (Nat.le_zero.mp hs)
    subst hsnil
    refine ⟨?_, ?_⟩ <;> simp [chunk]
  | succ m ih =>
    intro s hs
    by_cases hsnil : s = []
    · subst hsnil
      refine ⟨?_, ?_⟩ <;> simp [chunk]
    · have hcond : ¬(n = 0 ∨ s = []) := by
        push_neg
        exact ⟨Nat.pos_iff_ne_zero.mp hn, hsnil⟩
      have hdroplen : (s.drop n).length ≤ m := by
        have h1 : 0 < s.length := List.length_pos.mpr hsnil
        simp only [List.length_drop]
        omega
      obtain ⟨ihb, ihj⟩ := ih (s.drop n) hdroplen
      rw [chunk, dif_neg hcond]
      refine ⟨?_, ?_⟩
      · intro c hc
        rcases List.mem_cons.mp hc with hceq | hcmem
        · subst hceq
          simp [List.length_take]
        · exact ihb c hcmem
      · simp only [List.flatten_cons, ihj, List.take_append_drop]

/-! ## Byte-safe-truncation claim: `postToSlackCodeBlock` (p4 lines 146-173)

The truncation performed there is
`merged = safe.slice(0, Math.max(0, (cfg.MAX_POST_CHARS || 3600) - tail.length)) + tail`. -/

/-- The fixed trailing notice of `postToSlackCodeBlock`. -/
def tailNotice : JStr := jstr ("\n\n---\n※ この続き/完全版は eml を生成AIで参照ください。")

/-- The `merged` text computed by `postToSlackCodeBlock` before posting:
a character-count prefix of the input followed by the fixed notice.
(`Math.max(0, ·)` is truncated subtraction on `Nat`.) -/
def mergedPost (maxPostChars : Nat) (text : JStr) : JStr :=
  text.take (jsOrNum maxPostChars 3600 - tailNotice.length) ++ tailNotice

/-- UTF-8 byte length of one (BMP) character. -/
def utf8CLen (c : Char) : Nat :=
  if c.toNat < 128 then 1 else if c.toNat < 2048 then 2
  else if c.toNat < 65536 then 3 else 4

/-- UTF-8 byte length of a string. -/
def utf8Len (s : JStr) : Nat := (s.map utf8CLen).sum

/-! ## Signature verifiers

`timingSafeEq` (a length check followed by `crypto.timingSafeEqual`) is
extensionally string equality.  The HMAC-SHA256 hex digest is an external
collaborator: the verifiers are parametric in `hmacHex secret message`. -/

def timingSafeEq (a b : JStr) : Bool := a == b

/-- Verifier `verifySlackSignature` of v1 (lines 32-38), identical to `verifySig`
of v2 and p3: no timestamp-freshness check. -/
def verifySlackSignature_v1 (secret tsStr sig raw : JStr)
    (hmacHex : JStr → JStr → JStr) : Bool :=
  if secret = [] ∨ sig = [] ∨ tsStr = [] then false
  else timingSafeEq
    (jstr ("v0=") ++ hmacHex secret (jstr ("v0:") ++ tsStr ++ jstr (":") ++ raw)) sig

/-- Verifier `verifySlackSignature` of p2 (part_002 lines 74-87): rejects missing
headers, rejects a clock skew above 300 seconds, then compares the
signature.  `now` is `Math.floor(Date.now()/1000)`; `tsNum` is
`Number(ts)` for the numeric header string `tsStr`. -/
def verifySlackSignature_p2 (secret tsStr : JStr) (tsNum : Int) (sig raw : JStr)
    (now : Int) (hmacHex : JStr → JStr → JStr) : Bool :=
  if tsStr = [] ∨ sig = [] then false
  else if 300 < (now - tsNum).natAbs then false
  else timingSafeEq
    (jstr ("v0=") ++ hmacHex secret (jstr ("v0:") ++ tsStr ++ jstr (":") ++ raw)) sig

/-- Verifier `verifySlackSignature` of p4 (part_004 lines 63-81): skips
verification entirely (returns `true`) when no signing secret is
configured; otherwise rejects missing headers, rejects a clock skew
above `60 * 5 = 300` seconds, then compares the signature (the
`timingSafeEqual` call in a try/catch, where a length mismatch throws
and is caught to `false`, is extensionally string equality).  `tsNum` is
`parseInt(ts, 10)` for the numeric header string `tsStr`. -/
def verifySlackSignature_p4 (secret tsStr : JStr) (tsNum : Int) (sig raw : JStr)
    (now : Int) (hmacHex : JStr → JStr → JStr) : Bool :=
  if secret = [] then true
  else if tsStr = [] ∨ sig = [] then false
  else if 300 < (now - tsNum).natAbs then false
  else timingSafeEq
    (jstr ("v0=") ++ hmacHex secret (jstr ("v0:") ++ tsStr ++ jstr (":") ++ raw)) sig

/-! ## Slack file metadata -/

/-- One entry of a `shares` posts array: `{ts, thread_ts}`; an absent
`thread_ts` is the empty string. -/
structure SharePost where
  ts : JStr
  threadTs : JStr
deriving DecidableEq

/-- The `files.info` file object, restricted to the fields the program reads.
`sharesPrivate`/`sharesPublic` are `none` when the `shares` scope object
is absent (JS falsy); a present-but-empty object is `some []` (truthy). -/
structure FileInfo where
  name : JStr
  sharesPrivate : Option (List (JStr × List SharePost))
  sharesPublic : Option (List (JStr × List SharePost))
  channels : List JStr
  urlPrivateDownload : JStr
  urlPrivate : JStr
  user : JStr
deriving DecidableEq

/-- A `files.info` API response: `ok` flag plus file object. -/
structure InfoResp where
  ok : Bool
  file : FileInfo
deriving DecidableEq

def shareEntries (o : Option (List (JStr × List SharePost))) :
    List (JStr × List SharePost) :=
  o.getD []

/-- Scan of `resolveFromShares` (v1 lines 124-138): first share entry with
a non-empty posts array, a truthy channel id and a truthy
`thread_ts || ts`; no `channels` fallback. -/
def resolveScan : List (JStr × List SharePost) → JStr × JStr
  | [] => ([], [])
  | (_, []) :: rest => resolveScan rest
  | (cid, p :: _) :: rest =>
    let t := jsOrS p.threadTs p.ts
    if cid ≠ [] ∧ t ≠ [] then (cid, t) else resolveScan rest

def resolveFromShares (f : FileInfo) : JStr × JStr :=
  resolveScan (shareEntries f.sharesPrivate ++ shareEntries f.sharesPublic)

/-- Scan of `placeFromShares` (v2 lines 635-650, p3 lines 106-118): first
share entry with a non-empty posts array, taken unconditionally;
falls back to `channels[0]` with no thread. -/
def placeScan : List (JStr × List SharePost) → Option (JStr × JStr)
  | [] => none
  | (_, []) :: rest => placeScan rest
  | (cid, p :: _) :: _ => some (cid, jsOrS p.threadTs p.ts)

def placeFromShares (f : FileInfo) : JStr × JStr :=
  match placeScan (shareEntries f.sharesPrivate ++ shareEntries f.sharesPublic) with
  | some r => r
  | none =>
    match f.channels with
    | c :: _ => (c, [])
    | [] => ([], [])

/-! ## `filesInfoWithShares` (v2 lines 615-633, p3 lines 93-105)

A bounded polling loop: up to `tries` `files.info` queries, sleeping a
fixed `wait` after each unsuccessful one; returns the file as soon as
share metadata is visible, otherwise the last response's file (or throws
when the last response is not `ok`). -/

/-- The loop's success condition:
`f?.shares?.private || f?.shares?.public || (Array.isArray(f?.channels) && f.channels.length>0)`. -/
def hasShares (f : FileInfo) : Bool :=
  f.sharesPrivate.isSome || f.sharesPublic.isSome || !f.channels.isEmpty

/-- Result of the polling loop: outcome, number of `files.info` queries
made, number of fixed-length sleeps performed. -/
structure FiwsRes where
  result : Except Unit FileInfo
  queries : Nat
  sleeps : Nat

def fiwsFinal (last : Option InfoResp) : Except Unit FileInfo :=
  match last with
  | some r => if r.ok then Except.ok r.file else Except.error ()
  | none => Except.error ()

def fiwsAux (resp : Nat → InfoResp) (i : Nat) :
    Nat → Option InfoResp → FiwsRes
  | 0, last => ⟨fiwsFinal last, 0, 0⟩
  | rem + 1, _ =>
    let r := resp i
    if r.ok ∧ hasShares r.file then ⟨Except.ok r.file, 1, 0⟩
    else
      let rest := fiwsAux resp (i + 1) rem (some r)
      ⟨rest.result, rest.queries + 1, rest.sleeps + 1⟩

/-- The polling loop, with the upstream responses `resp` as an external
collaborator (`resp i` is the response to the `i`-th query). -/
def filesInfoWithShares (resp : Nat → InfoResp) (tries : Nat) : FiwsRes :=
  fiwsAux resp 0 tries none

/-! ## Stores, outbound calls, rendered blocks -/

/-- A value held in the v1 `PREVIEW_STORE`: either the JSON object
`{body, filename}` written by `handleFileShared`, or a plain string (the
legacy shape `handleBlockActions` still accepts, and the `"1"` done
flags).  The JSON round-trip is modelled as identity. -/
inductive StoredVal where
  | jsonEntry (body filename : JStr)
  | plain (s : JStr)
deriving DecidableEq

/-- JS truthiness of a v1 store read. -/
def truthyV (o : Option StoredVal) : Bool :=
  match o with
  | some (StoredVal.plain s) => !s.isEmpty
  | some (StoredVal.jsonEntry _ _) => true
  | none => false

abbrev StoreS := List (JStr × JStr)
abbrev StoreV := List (JStr × StoredVal)

/-- Parse step `JSON.parse` of a v1 store value inside `handleBlockActions`
(lines 230-239): the JSON shape yields `{body, filename}` (`??` keeps
empty strings), a plain string falls into the catch branch. -/
def parseStored : StoredVal → JStr × JStr
  | StoredVal.jsonEntry b f => (b, f)
  | StoredVal.plain s => (s, jstr ("メール本文"))

/-- The mrkdwn text of the section block built by `blocksPreview`/
`blocksFull` and carried by an update/post. -/
inductive BlockView where
  | previewB (filename preview value : JStr)
  | fullB (filename body value : JStr)
deriving DecidableEq

/-- The modal view built by `modalView` (p3 lines 83-91): truncated
title, code-fence chunks of the body, optional DM-copy button,
`private_metadata` `{key, filename}`. -/
structure Modal3 where
  title : JStr
  blocksTexts : List JStr
  hasDMButton : Bool
  metaKey : JStr
  metaFilename : JStr
deriving DecidableEq

/-- An outbound network call made by the program. -/
inductive OutCall where
  | info (fileId : JStr)
  | download (url : JStr)
  | postMsg (channel threadTs text : JStr) (view : Option BlockView)
  | updateMsg (channel ts text : JStr) (view : BlockView)
  | viewsOpenC (m : Modal3)
  | convOpen (userId : JStr)
deriving DecidableEq

def isPostMsg : OutCall → Bool
  | OutCall.postMsg _ _ _ _ => true
  | _ => false

/-- Number of posted messages in a call trace. -/
def postsCount (calls : List OutCall) : Nat := (calls.filter isPostMsg).length

/-! ## Variant v1: `handleFileShared`, `handleBlockActions`, `handler`
(slack-events.js lines 166-315) -/

/-- External collaborators and configuration of one v1 invocation. -/
structure Env1 where
  secret : JStr
  hmacHex : JStr → JStr → JStr
  finfo : InfoResp
  downloadOk : Bool
  parsed : Except Unit JStr
  nowStr : JStr
  maxPreview : Nat

/-- The inner Slack event, restricted to the fields v1 reads.  Absent
string fields are `[]`; `hasDiag` models `/diag/i.test(ev.text ?? "")`. -/
structure Ev1 where
  etype : JStr
  hasDiag : Bool
  channel : JStr
  channelId : JStr
  ts : JStr
  eventTs : JStr
  fileId : JStr
  fileObjId : JStr
  filesFirstId : JStr
deriving DecidableEq

/-- JS `ev.file_id || ev.file?.id || (Array.isArray(ev.files) && ev.files[0]?.id) || null`. -/
def evFileId (ev : Ev1) : JStr := jsOrS ev.fileId (jsOrS ev.fileObjId ev.filesFirstId)

/-- Function `handleFileShared` (v1 lines 166-214).  Returns the updated preview
store, the outbound-call trace, and `false` when an exception escaped
(download or parse failure); the caller catches it. -/
def handleFileShared_v1 (env : Env1) (ev : Ev1) (st : StoreV) :
    StoreV × List OutCall × Bool :=
  let fid := evFileId ev
  if fid = [] then (st, [], true)
  else
    let calls := [OutCall.info fid]
    if !env.finfo.ok then (st, calls, true)
    else
      let f := env.finfo.file
      if !isSupportedName f.name then (st, calls, true)
      else
        let sharesRef := resolveFromShares f
        let channel := jsOrS ev.channelId (jsOrS ev.channel sharesRef.1)
        let threadTs := jsOrS ev.ts (jsOrS sharesRef.2 ev.eventTs)
        if channel = [] ∨ threadTs = [] then (st, calls, true)
        else
          let doneKey :=
            jstr ("done:") ++ fid ++ jstr (":") ++ channel ++ jstr (":") ++ threadTs
          if truthyV (lookupA st doneKey) then (st, calls, true)
          else
            let url := jsOrS f.urlPrivateDownload f.urlPrivate
            if url = [] then (st, calls, true)
            else
              let calls := calls ++ [OutCall.download url]
              if !env.downloadOk then (st, calls, false)
              else
                match env.parsed with
                | Except.error _ => (st, calls, false)
                | Except.ok parsed =>
                  let body := normalizeText env.maxPreview parsed
                  let dataKey := jstr ("p:") ++ env.nowStr ++ jstr (":") ++ fid
                  let st1 := setA st dataKey (StoredVal.jsonEntry body f.name)
                  let st2 := setA st1 doneKey (StoredVal.plain (jstr ("1")))
                  let preview := firstLine body
                  (st2,
                    calls ++ [OutCall.postMsg channel threadTs
                      (jstr ("解析結果（プレビュー）"))
                      (some (BlockView.previewB f.name preview dataKey))],
                    true)

/-- An interactive action `{action_id, value}` of v1. -/
structure BAction1 where
  actionId : JStr
  value : JStr
deriving DecidableEq

/-- The v1 `block_actions` payload: first action, `channel.id`,
`message.ts` (absent is `[]`/`none`). -/
structure BAPayload1 where
  action : Option BAction1
  channelId : JStr
  msgTs : JStr
deriving DecidableEq

def blocksPreviewText (filename preview : JStr) : JStr :=
  jstr ("🧾 解析結果（") ++ filename ++ jstr ("）\n```\n") ++ preview ++ jstr ("\n```")

/-- Function `handleBlockActions` (v1 lines 217-252): re-reads the body from the
store under the key carried in the button value, renders full text or
first-line preview, updates the message; no store writes. -/
def handleBlockActions_v1 (st : StoreV) (p : BAPayload1) : List OutCall :=
  match p.action with
  | none => []
  | some a =>
    if p.channelId = [] ∨ p.msgTs = [] then []
    else
      match lookupA st a.value with
      | none => []
      | some v =>
        if v = StoredVal.plain [] then []
        else
          let bf := parseStored v
          if a.actionId = jstr ("show_full") then
            [OutCall.updateMsg p.channelId p.msgTs (jstr ("解析結果（全文）"))
              (BlockView.fullB bf.2 bf.1 a.value)]
          else if a.actionId = jstr ("show_preview") then
            [OutCall.updateMsg p.channelId p.msgTs (jstr ("解析結果（プレビュー）"))
              (BlockView.previewB bf.2 (firstLine bf.1) a.value)]
          else []

/-- Parsed request body / dispatch shape of the v1 handler; the
constructor encodes the content-type branch and the JSON-parse outcome. -/
inductive Body1 where
  | formNoPayload
  | formBadJson
  | formBlockActions (p : BAPayload1)
  | formOtherType
  | jsonBad
  | urlVerification (challenge : JStr)
  | eventCallback (ev : Ev1)
  | jsonOtherType
deriving DecidableEq

/-- An inbound HTTP request, as v1's handler reads it. -/
structure Req1 where
  hasRetryHeader : Bool
  tsStr : JStr
  sig : JStr
  raw : JStr
  body : Body1
deriving DecidableEq

/-- Handler outcome: HTTP status (`none` when an exception escaped the
handler and no response was produced), final store, outbound calls. -/
structure HOutV where
  status : Option Nat
  store : StoreV
  calls : List OutCall
deriving DecidableEq

/-- The v1 entry point `handler` (lines 255-315). -/
def handler_v1 (env : Env1) (req : Req1) (st : StoreV) : HOutV :=
  if req.hasRetryHeader then ⟨some 200, st, []⟩
  else if !verifySlackSignature_v1 env.secret req.tsStr req.sig req.raw env.hmacHex then
    ⟨some 401, st, []⟩
  else
    match req.body with
    | Body1.formNoPayload => ⟨some 200, st, []⟩
    | Body1.formBadJson => ⟨none, st, []⟩
    | Body1.formBlockActions p => ⟨some 200, st, handleBlockActions_v1 st p⟩
    | Body1.formOtherType => ⟨some 200, st, []⟩
    | Body1.jsonBad => ⟨some 400, st, []⟩
    | Body1.urlVerification _ => ⟨some 200, st, []⟩
    | Body1.eventCallback ev =>
      if ev.etype = jstr ("app_mention") ∧ ev.hasDiag then
        ⟨some 200, st,
          if ev.channel ≠ [] then
            [OutCall.postMsg ev.channel ev.ts (jstr ("diag: ok ✅")) none]
          else []⟩
      else if ev.etype = jstr ("file_shared") then
        ⟨some 200, (handleFileShared_v1 env ev st).1,
          (handleFileShared_v1 env ev st).2.1⟩
      else ⟨some 200, st, []⟩
    | Body1.jsonOtherType => ⟨some 200, st, []⟩

/-! ## Variant p3: `handleFileById`, `handleBlockActions`, `handler`
(part_003 lines 93-248; the coordinator is the same protocol as v2's
`handleFileById`, slack-events.js lines 653-753) -/

/-- External collaborators and configuration of one p3 invocation. -/
structure Env3 where
  secret : JStr
  hmacHex : JStr → JStr → JStr
  infoResp : Nat → InfoResp
  downloadOk : Bool
  parsed : Except Unit JStr
  nowStr : JStr
  maxPreview : Nat
  dmCopy : Bool
  dmOpenOk : Bool
  dmChannelId : JStr
  debug : Bool

/-- The `finally` block of `handleFileById`: set the lock key to
`"done"` on every exit path. -/
def finalizeLock (fileId : JStr) (st : StoreS) (calls : List OutCall) (ok : Bool) :
    StoreS × List OutCall × Bool :=
  (setA st (jstr ("lock:") ++ fileId) (jstr ("done")), calls, ok)

/-- Function `handleFileById` (p3 lines 120-154): the dedup/lock coordinator.
Reads the lock key and aborts silently when it is present; otherwise
writes the lock, checks the done flag, resolves the destination, polls
metadata, downloads, parses, stores the body, posts one preview, marks
done; the `finally` clause rewrites the lock to `"done"` on every exit
of the `try` block.  Returns (store, outbound calls, ok); `ok = false`
means an exception escaped (metadata polling, download or parse
failure). -/
def handleFileById_p3 (env : Env3) (fileId channelHint threadHint : JStr)
    (st : StoreS) : StoreS × List OutCall × Bool :=
  if fileId = [] then (st, [], true)
  else
    let lock := jstr ("lock:") ++ fileId
    if truthyS (lookupA st lock) then (st, [], true)
    else
      let st1 := setA st lock env.nowStr
      let doneKey := jstr ("done:") ++ fileId
      if truthyS (lookupA st1 doneKey) then finalizeLock fileId st1 [] true
      else
        let fr := filesInfoWithShares env.infoResp 5
        let calls := List.replicate fr.queries (OutCall.info fileId)
        match fr.result with
        | Except.error _ => finalizeLock fileId st1 calls false
        | Except.ok f =>
          if !isSupportedName f.name then
            finalizeLock fileId (setA st1 doneKey (jstr ("1"))) calls true
          else
            let r := placeFromShares f
            let channel := jsOrS channelHint r.1
            let threadTs := jsOrS threadHint r.2
            if channel = [] then
              finalizeLock fileId (setA st1 doneKey (jstr ("1"))) calls true
            else
              let url := jsOrS f.urlPrivateDownload f.urlPrivate
              if url = [] then
                finalizeLock fileId (setA st1 doneKey (jstr ("1"))) calls true
              else
                let calls := calls ++ [OutCall.download url]
                if !env.downloadOk then finalizeLock fileId st1 calls false
                else
                  match env.parsed with
                  | Except.error _ => finalizeLock fileId st1 calls false
                  | Except.ok parsed =>
                    let body := normalizeText env.maxPreview parsed
                    let key := jstr ("p:") ++ env.nowStr ++ jstr (":") ++ fileId
                    let st2 := setA st1 key body
                    let preview := firstLine body
                    let calls := calls ++ [OutCall.postMsg channel threadTs
                      (jstr ("解析結果（プレビュー）"))
                      (some (BlockView.previewB f.name preview key))]
                    finalizeLock fileId (setA st2 doneKey (jstr ("1"))) calls true

/-- Function `modalView` (p3 lines 83-91): truncated title, body split into
2900-character code-fence chunks (or a placeholder when empty), an
optional DM-copy button, and `{key, filename}` as private metadata. -/
def modalView3 (dmCopy : Bool) (filename body key : JStr) : Modal3 :=
  let title := (jsOrS filename (jstr ("解析結果"))).take 24
  let cs := (chunk body 2900).map (fun c => jstr ("```\n") ++ c ++ jstr ("\n```"))
  let blocks := if cs = [] then [jstr ("（内容なし）")] else cs
  ⟨title, blocks, dmCopy, key, filename⟩

/-- The `{key, filename}` JSON object carried in p3 button values and
modal metadata (round-trip modelled as identity). -/
structure Meta3 where
  key : JStr
  filename : JStr
deriving DecidableEq

structure BAction3 where
  actionId : JStr
  value : Option Meta3
deriving DecidableEq

/-- The p3 `block_actions` payload fields the code reads. -/
structure Payload3 where
  action : Option BAction3
  triggerId : JStr
  userId : JStr
  viewMeta : Option Meta3
deriving DecidableEq

/-- Function `handleBlockActions` (p3 lines 156-179): `open_modal` re-reads the
body from the store and opens a modal; `send_copy_dm` (behind the
DM-copy flag) re-reads the body, opens a DM and posts a copy. -/
def handleBlockActions_p3 (env : Env3) (st : StoreS) (p : Payload3) :
    List OutCall :=
  match p.action with
  | none => []
  | some a =>
    if a.actionId = jstr ("open_modal") then
      let key := match a.value with
        | some m => m.key
        | none => []
      let filename := jsOrS (match a.value with
        | some m => m.filename
        | none => []) (jstr ("解析結果"))
      if p.triggerId = [] ∨ key = [] then []
      else
        let body := (lookupA st key).getD (jstr ("(content expired)"))
        [OutCall.viewsOpenC (modalView3 env.dmCopy filename body key)]
    else if a.actionId = jstr ("send_copy_dm") ∧ env.dmCopy then
      let meta := p.viewMeta.getD ⟨[], []⟩
      let key := meta.key
      let filename := jsOrS meta.filename (jstr ("解析結果"))
      if p.userId = [] ∨ key = [] then []
      else
        let body := (lookupA st key).getD (jstr ("(content expired)"))
        OutCall.convOpen p.userId ::
          (if env.dmOpenOk ∧ env.dmChannelId ≠ [] then
            [OutCall.postMsg env.dmChannelId []
              (jstr ("🧾 解析結果（") ++ filename ++ jstr ("）\n```\n") ++ body ++ jstr ("\n```"))
              none]
          else [])
    else []

/-- The inner Slack event, restricted to the fields p3 reads. -/
structure Ev3 where
  etype : JStr
  subtype : JStr
  hasDiag : Bool
  channel : JStr
  channelId : JStr
  ts : JStr
  eventTs : JStr
  fileId : JStr
  filesPresent : Bool
  filesFirstId : JStr
deriving DecidableEq

/-- Parsed request body / dispatch shape of the p3 handler. -/
inductive Body3 where
  | formNoPayload
  | formBadJson
  | formBlockActions (p : Payload3)
  | formOtherType
  | jsonBad
  | urlVerification (challenge : JStr)
  | eventCallback (ev : Ev3)
  | jsonOtherType
deriving DecidableEq

structure Req3 where
  isGet : Bool
  tsStr : JStr
  sig : JStr
  raw : JStr
  body : Body3
deriving DecidableEq

/-- Handler outcome for p3 (status `none` = exception escaped). -/
structure HOutS where
  status : Option Nat
  store : StoreS
  calls : List OutCall

/-- A `file_shared`/`message` file branch of the p3 handler:
`await handleFileById(...)` with no `catch` — a rejection escapes the
handler, so no response is produced on failure. -/
def fileBranch_p3 (env : Env3) (fileId channelHint threadHint : JStr)
    (st : StoreS) : HOutS :=
  let r := handleFileById_p3 env fileId channelHint threadHint st
  ⟨if r.2.2 then some 200 else none, r.1, r.2.1⟩

/-- The p3 entry point `handler` (lines 181-248).  `verifySig` there is
textually the same function as v1's `verifySlackSignature`. -/
def handler_p3 (env : Env3) (req : Req3) (st : StoreS) : HOutS :=
  if env.debug ∧ req.isGet then ⟨some 200, st, []⟩
  else if !verifySlackSignature_v1 env.secret req.tsStr req.sig req.raw env.hmacHex then
    ⟨some 401, st, []⟩
  else
    match req.body with
    | Body3.formNoPayload => ⟨some 200, st, []⟩
    | Body3.formBadJson => ⟨none, st, []⟩
    | Body3.formBlockActions p => ⟨some 200, st, handleBlockActions_p3 env st p⟩
    | Body3.formOtherType => ⟨some 200, st, []⟩
    | Body3.jsonBad => ⟨some 400, st, []⟩
    | Body3.urlVerification _ => ⟨some 200, st, []⟩
    | Body3.eventCallback ev =>
      if ev.etype = jstr ("app_mention") ∧ ev.hasDiag then
        ⟨some 200, st,
          if ev.channel ≠ [] then
            [OutCall.postMsg ev.channel ev.ts (jstr ("diag: ok ✅")) none]
          else []⟩
      else if ev.etype = jstr ("message") ∧ ev.filesPresent then
        fileBranch_p3 env ev.filesFirstId ev.channel ev.ts st
      else if ev.etype = jstr ("message") ∧ ev.subtype = jstr ("file_share") then
        fileBranch_p3 env ev.filesFirstId ev.channel ev.ts st
      else if ev.etype = jstr ("file_shared") then
        fileBranch_p3 env ev.fileId ev.channelId ev.eventTs st
      else ⟨some 200, st, []⟩
    | Body3.jsonOtherType => ⟨some 200, st, []⟩

/-! ## Concrete fixtures used by witnesses and counterexamples -/

/-- A concrete stand-in for the external HMAC-SHA256 hex collaborator. -/
def hmacC : JStr → JStr → JStr := fun _ _ => jstr ("h")

def fileEml : FileInfo :=
  { name := jstr ("mail.eml")
    sharesPrivate := some [(jstr ("C1"), [{ ts := jstr ("111.1"), threadTs := [] }])]
    sharesPublic := none
    channels := []
    urlPrivateDownload := jstr ("https://dl")
    urlPrivate := []
    user := jstr ("U1") }

def filePng : FileInfo := { fileEml with name := jstr ("photo.png") }

def fileBare : FileInfo :=
  { name := [], sharesPrivate := none, sharesPublic := none, channels := []
    urlPrivateDownload := [], urlPrivate := [], user := [] }

/-- Upstream metadata that never becomes visible: every `files.info`
response fails. -/
def respNever : Nat → InfoResp := fun _ => { ok := false, file := fileBare }

def evPlain : Ev1 :=
  { etype := jstr ("x"), hasDiag := false, channel := [], channelId := []
    ts := [], eventTs := [], fileId := [], fileObjId := [], filesFirstId := [] }

def envB1 : Env1 :=
  { secret := jstr ("s"), hmacHex := hmacC, finfo := { ok := true, file := fileEml }
    downloadOk := true, parsed := Except.ok (jstr ("hello"))
    nowStr := jstr ("111"), maxPreview := 3000 }

/-- v1 environment whose metadata lookup returns an unsupported file. -/
def envPng1 : Env1 := { envB1 with finfo := { ok := true, file := filePng } }

/-- v1 environment in which the extractor produced a 3200-character body. -/
def envLong1 : Env1 := { envB1 with parsed := Except.ok (List.replicate 3200 'a') }

def evShared1 : Ev1 :=
  { etype := jstr ("file_shared"), hasDiag := false, channel := []
    channelId := jstr ("C1"), ts := jstr ("111.1"), eventTs := []
    fileId := jstr ("F1"), fileObjId := [], filesFirstId := [] }

def reqEvent1 : Req1 :=
  { hasRetryHeader := false, tsStr := jstr ("1"), sig := jstr ("v0=h")
    raw := jstr ("r"), body := Body1.eventCallback evPlain }

/-- A request carrying `x-slack-retry-num`, with both signature headers
missing. -/
def reqRetry1 : Req1 :=
  { hasRetryHeader := true, tsStr := [], sig := [], raw := []
    body := Body1.eventCallback evPlain }

/-- A request with a wrong signature and no retry header. -/
def reqBad1 : Req1 :=
  { hasRetryHeader := false, tsStr := jstr ("1"), sig := jstr ("v0=x")
    raw := jstr ("r"), body := Body1.eventCallback evPlain }

def envA3 : Env3 :=
  { secret := jstr ("s"), hmacHex := hmacC
    infoResp := fun _ => { ok := true, file := fileEml }
    downloadOk := true, parsed := Except.ok (jstr ("hello"))
    nowStr := jstr ("111"), maxPreview := 3000
    dmCopy := false, dmOpenOk := false, dmChannelId := [], debug := false }

def envFail3 : Env3 := { envA3 with infoResp := respNever }

def evShared3 : Ev3 :=
  { etype := jstr ("file_shared"), subtype := [], hasDiag := false
    channel := [], channelId := jstr ("C1"), ts := [], eventTs := jstr ("111.1")
    fileId := jstr ("F1"), filesPresent := false, filesFirstId := [] }

def reqShared3 : Req3 :=
  { isGet := false, tsStr := jstr ("1"), sig := jstr ("v0=h"), raw := jstr ("r")
    body := Body3.eventCallback evShared3 }

def stToggle : StoreV :=
  [(jstr ("k1"), StoredVal.jsonEntry (jstr ("line1\nline2")) (jstr ("m.eml")))]

def actsToggle : List BAction1 :=
  [{ actionId := jstr ("show_full"), value := jstr ("k1") },
   { actionId := jstr ("show_preview"), value := jstr ("k1") },
   { actionId := jstr ("show_full"), value := jstr ("k1") }]

/-- The reply channel resolved by v1's `handleFileShared`:
`ev.channel_id || ev.channel || sharesRef.channel`. -/
def v1Channel (env : Env1) (ev : Ev1) : JStr :=
  jsOrS ev.channelId (jsOrS ev.channel (resolveFromShares env.finfo.file).1)

/-- The reply thread resolved by v1's `handleFileShared`:
`ev.ts || sharesRef.thread_ts || ev.event_ts`. -/
def v1Thread (env : Env1) (ev : Ev1) : JStr :=
  jsOrS ev.ts (jsOrS (resolveFromShares env.finfo.file).2 ev.eventTs)

/-- v1's dedup key `done:{fileId}:{channel}:{thread_ts}`. -/
def v1DoneKey (env : Env1) (ev : Ev1) : JStr :=
  jstr ("done:") ++ evFileId ev ++ jstr (":") ++ v1Channel env ev ++ jstr (":") ++
    v1Thread env ev

/-- v1's content key `p:{now}:{fileId}`. -/
def v1DataKey (env : Env1) (ev : Ev1) : JStr :=
  jstr ("p:") ++ env.nowStr ++ jstr (":") ++ evFileId ev

/-- v1's download URL choice `f.url_private_download || f.url_private`. -/
def v1Url (env : Env1) : JStr :=
  jsOrS env.finfo.file.urlPrivateDownload env.finfo.file.urlPrivate

/-! ## Helper lemmas -/

theorem lookupA_setA_same {α : Type} (st : List (JStr × α)) (k : JStr) (v : α) :
    lookupA (setA st k v) k = some v := by
  simp [lookupA, setA]

theorem truthyS_lock_done (fid : JStr) (st : StoreS) :
    truthyS (lookupA (setA st (jstr ("lock:") ++ fid) (jstr ("done")))
      (jstr ("lock:") ++ fid)) = true := by
  rw [lookupA_setA_same]
  decide

theorem run_noop_when_locked (env : Env3) (fid ch th : JStr) (st : StoreS)
    (h : truthyS (lookupA st (jstr ("lock:") ++ fid)) = true) :
    handleFileById_p3 env fid ch th st = (st, [], true) := by
  unfold handleFileById_p3
  by_cases hf : fid = []
  · rw [if_pos hf]
  · rw [if_neg hf, if_pos h]

theorem truthyS_fin (fid : JStr) (st : StoreS) (calls : List OutCall) (ok : Bool) :
    truthyS (lookupA (finalizeLock fid st calls ok).1 (jstr ("lock:") ++ fid)) = true := by
  simp only [finalizeLock]
  exact truthyS_lock_done fid st

theorem lock_after_run (env : Env3) (fid ch th : JStr) (st : StoreS)
    (hfid : fid ≠ []) :
    truthyS (lookupA (handleFileById_p3 env fid ch th st).1
      (jstr ("lock:") ++ fid)) = true := by
  simp only [handleFileById_p3]
  rw [if_neg hfid]
  by_cases hl : truthyS (lookupA st (jstr ("lock:") ++ fid)) = true
  · rw [if_pos hl]
    exact hl
  rw [if_neg hl]
  by_cases h3 : truthyS (lookupA (setA st (jstr ("lock:") ++ fid) env.nowStr)
      (jstr ("done:") ++ fid)) = true
  · rw [if_pos h3]
    exact truthyS_fin fid _ _ _
  rw [if_neg h3]
  cases hres : (filesInfoWithShares env.infoResp 5).result with
  | error e => exact truthyS_fin fid _ _ _
  | ok f =>
    repeat' split
    all_goals exact truthyS_fin fid _ _ _

theorem filter_info_replicate (n : Nat) (fid : JStr) :
    List.filter isPostMsg (List.replicate n (OutCall.info fid)) = [] := by
  induction n with
  | zero => rfl
  | succ m ih =>
    rw [List.replicate_succ, List.filter_cons]
    simp [isPostMsg, ih]

theorem posts_after_run (env : Env3) (fid ch th : JStr) (st : StoreS) :
    postsCount (handleFileById_p3 env fid ch th st).2.1 ≤ 1 := by
  simp only [handleFileById_p3]
  by_cases h1 : fid = []
  · rw [if_pos h1]
    simp [postsCount]
  rw [if_neg h1]
  by_cases hl : truthyS (lookupA st (jstr ("lock:") ++ fid)) = true
  · rw [if_pos hl]
    simp [postsCount]
  rw [if_neg hl]
  by_cases h3 : truthyS (lookupA (setA st (jstr ("lock:") ++ fid) env.nowStr)
      (jstr ("done:") ++ fid)) = true
  · rw [if_pos h3]
    simp [finalizeLock, postsCount]
  rw [if_neg h3]
  cases hres : (filesInfoWithShares env.infoResp 5).result with
  | error e =>
    simp [finalizeLock, postsCount, filter_info_replicate]
  | ok f =>
    repeat' split
    all_goals
      simp [finalizeLock, postsCount, List.filter_append, List.filter_cons,
        filter_info_replicate, isPostMsg]

theorem fiwsAux_queries_le (resp : Nat → InfoResp) :
    ∀ (rem i : Nat) (last : Option InfoResp),
      (fiwsAux resp i rem last).queries ≤ rem ∧
        (fiwsAux resp i rem last).sleeps ≤ rem := by
  intro rem
  induction rem with
  | zero => intro i last; exact ⟨Nat.le_refl 0, Nat.le_refl 0⟩
  | succ m ih =>
    intro i last
    simp only [fiwsAux]
    split
    · exact ⟨Nat.one_le_iff_ne_zero.mpr (by omega), Nat.zero_le _⟩
    · obtain ⟨hq, hs⟩ := ih (i + 1) (some (resp i))
      exact ⟨Nat.succ_le_succ hq, Nat.succ_le_succ hs⟩

theorem fiwsAux_queries_eq (resp : Nat → InfoResp)
    (hnever : ∀ i, ¬((resp i).ok = true ∧ hasShares (resp i).file = true)) :
    ∀ (rem i : Nat) (last : Option InfoResp),
      (fiwsAux resp i rem last).queries = rem := by
  intro rem
  induction rem with
  | zero => intro i last; rfl
  | succ m ih =>
    intro i last
    simp only [fiwsAux]
    rw [if_neg (hnever i)]
    simp [ih (i + 1) (some (resp i))]

/-! ## Claim theorems -/

/-- C1: delivering the same `fileId` twice through the dedup/lock
coordinator (p3 `handleFileById`, the same lock protocol as v2
lines 662-668) yields at most one posted preview in total: after any
first attempt the lock key for that `fileId` is present in the store,
and a second attempt — with any environment and any hints, covering a
platform retry or the other event shape — reads the lock, finds it
present, and returns with the store unchanged and no outbound calls;
the first attempt itself posts at most one message. -/
theorem lock_coordinator_idempotent (env1 env2 : Env3)
    (fid ch1 th1 ch2 th2 : JStr) (st : StoreS) (hfid : fid ≠ []) :
    truthyS (lookupA (handleFileById_p3 env1 fid ch1 th1 st).1
      (jstr ("lock:") ++ fid)) = true ∧
    handleFileById_p3 env2 fid ch2 th2 (handleFileById_p3 env1 fid ch1 th1 st).1
      = ((handleFileById_p3 env1 fid ch1 th1 st).1, [], true) ∧
    postsCount (handleFileById_p3 env1 fid ch1 th1 st).2.1 ≤ 1 := by
  have hlock := lock_after_run env1 fid ch1 th1 st hfid
  exact ⟨hlock, run_noop_when_locked env2 fid ch2 th2 _ hlock,
    posts_after_run env1 fid ch1 th1 st⟩

/-- Witness for C1: a concrete first delivery of `F1` (which posts one
preview), after which the lock is present and a second delivery with
different hints is a complete no-op. -/
theorem lock_coordinator_idempotent_witness :
    jstr ("F1") ≠ [] ∧
    (truthyS (lookupA (handleFileById_p3 envA3 (jstr ("F1")) (jstr ("C1"))
        (jstr ("1.1")) []).1 (jstr ("lock:") ++ jstr ("F1"))) = true ∧
      handleFileById_p3 envA3 (jstr ("F1")) [] []
          (handleFileById_p3 envA3 (jstr ("F1")) (jstr ("C1")) (jstr ("1.1")) []).1
        = ((handleFileById_p3 envA3 (jstr ("F1")) (jstr ("C1")) (jstr ("1.1")) []).1,
            [], true) ∧
      postsCount (handleFileById_p3 envA3 (jstr ("F1")) (jstr ("C1"))
        (jstr ("1.1")) []).2.1 ≤ 1) :=
  ⟨by decide,
    lock_coordinator_idempotent envA3 envA3 (jstr ("F1")) (jstr ("C1"))
      (jstr ("1.1")) [] [] [] (by decide)⟩

/-- C2 counterexample: the main verifier (v1 `verifySlackSignature`,
identical in v2 and p3) performs no timestamp-freshness check at all:
with timestamp header `"1"` — more than 300 seconds away from a current
time of 2000000000 — and the correct signature for that timestamp and
body, it returns `true`, not `false`. -/
theorem verify_main_accepts_stale_timestamp :
    300 < ((2000000000 : Int) - 1).natAbs ∧
    verifySlackSignature_v1 (jstr ("s")) (jstr ("1"))
      (jstr ("v0=") ++ hmacC (jstr ("s"))
        (jstr ("v0:") ++ jstr ("1") ++ jstr (":") ++ jstr ("r")))
      (jstr ("r")) hmacC = true := by
  constructor
  · decide
  · decide

/-- C2 (amended): the replay check lives in the variants that implement
it — the p2 verifier (part_002 lines 74-87) always, and the p4 verifier
(part_004 lines 63-81) whenever a signing secret is configured: there,
`|now − timestamp| > 300` seconds makes the verifier return `false` for
every signature — in particular even for the correct HMAC of
`v0:{timestamp}:{body}`.  (The main slack-events.js verifier has no
freshness check at all; see the counterexample.) -/
theorem verify_replay_variants_reject_stale (secret tsStr : JStr) (tsNum : Int)
    (sig raw : JStr) (now : Int) (h : JStr → JStr → JStr)
    (hsecret : secret ≠ [])
    (hskew : 300 < (now - tsNum).natAbs) :
    verifySlackSignature_p2 secret tsStr tsNum sig raw now h = false ∧
    verifySlackSignature_p4 secret tsStr tsNum sig raw now h = false := by
  constructor
  · unfold verifySlackSignature_p2
    by_cases hmiss : tsStr = [] ∨ sig = []
    · rw [if_pos hmiss]
    · rw [if_neg hmiss, if_pos hskew]
  · unfold verifySlackSignature_p4
    rw [if_neg hsecret]
    by_cases hmiss : tsStr = [] ∨ sig = []
    · rw [if_pos hmiss]
    · rw [if_neg hmiss, if_pos hskew]

/-- Witness for C2's amended theorem: a stale timestamp (skew 1000 s)
carrying the correct signature for its own timestamp and body is
rejected by the p2 verifier and by the p4 verifier (secret set). -/
theorem verify_replay_variants_reject_stale_witness :
    jstr ("s") ≠ [] ∧
    300 < ((1000 : Int) - 0).natAbs ∧
    (verifySlackSignature_p2 (jstr ("s")) (jstr ("0")) 0
        (jstr ("v0=") ++ hmacC (jstr ("s"))
          (jstr ("v0:") ++ jstr ("0") ++ jstr (":") ++ jstr ("b")))
        (jstr ("b")) 1000 hmacC = false ∧
      verifySlackSignature_p4 (jstr ("s")) (jstr ("0")) 0
        (jstr ("v0=") ++ hmacC (jstr ("s"))
          (jstr ("v0:") ++ jstr ("0") ++ jstr (":") ++ jstr ("b")))
        (jstr ("b")) 1000 hmacC = false) :=
  ⟨by decide, by decide,
    verify_replay_variants_reject_stale (jstr ("s")) (jstr ("0")) 0 _
      (jstr ("b")) 1000 hmacC (by decide) (by decide)⟩

/-- C5: the metadata polling loop `filesInfoWithShares` performs at most
`tries` queries and at most `tries` fixed-length sleeps, and — when the
share metadata never appears in any response — gives up after exactly
`tries` queries (the loop is a total function, so it terminates on every
input).  The loop is called with `tries = 6` in v2 and `tries = 5`
in p3. -/
theorem resolver_polling_bounded (resp : Nat → InfoResp) (tries : Nat) :
    (filesInfoWithShares resp tries).queries ≤ tries ∧
    (filesInfoWithShares resp tries).sleeps ≤ tries ∧
    ((∀ i, ¬((resp i).ok = true ∧ hasShares (resp i).file = true)) →
      (filesInfoWithShares resp tries).queries = tries) := by
  refine ⟨(fiwsAux_queries_le resp tries 0 none).1,
    (fiwsAux_queries_le resp tries 0 none).2, fun hnever => ?_⟩
  exact fiwsAux_queries_eq resp hnever tries 0 none

/-- Witness for C5: with upstream responses that never contain share
metadata, the v2-configured loop (6 tries) performs exactly 6 queries
and stops. -/
theorem resolver_polling_bounded_witness :
    (filesInfoWithShares respNever 6).queries ≤ 6 ∧
    (filesInfoWithShares respNever 6).sleeps ≤ 6 ∧
    (filesInfoWithShares respNever 6).queries = 6 :=
  ⟨(resolver_polling_bounded respNever 6).1,
    (resolver_polling_bounded respNever 6).2.1,
    (resolver_polling_bounded respNever 6).2.2 (by intro i; simp [respNever])⟩

/-- C8 counterexample: the truncation in p4's `postToSlackCodeBlock` is
a character-count slice, not byte-safe: with `MAX_POST_CHARS = 40` and a
12-character input of three-byte characters, the merged result's UTF-8
byte length is 90, exceeding the budget of 40. -/
theorem merged_truncation_exceeds_byte_budget :
    40 < utf8Len (mergedPost 40 (List.replicate 12 'あ')) := by
  decide

/-- C8 (amended): the truncation of `postToSlackCodeBlock` caps the
result's character (UTF-16 code-unit) count, not its UTF-8 byte count:
whenever the configured `MAX_POST_CHARS` budget is at least the length
of the fixed trailing notice, the merged text is a character-prefix of
the input followed by the notice and its character length is at most the
budget.  There is no binary search and no UTF-8 byte-length guarantee. -/
theorem merged_truncation_char_cap (maxPostChars : Nat) (s : JStr)
    (hB : tailNotice.length ≤ jsOrNum maxPostChars 3600) :
    (mergedPost maxPostChars s).length ≤ jsOrNum maxPostChars 3600 ∧
    mergedPost maxPostChars s =
      s.take (jsOrNum maxPostChars 3600 - tailNotice.length) ++ tailNotice := by
  refine ⟨?_, rfl⟩
  simp only [mergedPost, List.length_append, List.length_take]
  omega

/-- Witness for C8's amended theorem: with the default budget 3600 the
merged text of a short input has character length at most 3600 and is
the input followed by the notice. -/
theorem merged_truncation_char_cap_witness :
    tailNotice.length ≤ jsOrNum 3600 3600 ∧
    ((mergedPost 3600 (jstr ("hello"))).length ≤ jsOrNum 3600 3600 ∧
      mergedPost 3600 (jstr ("hello")) =
        (jstr ("hello")).take (jsOrNum 3600 3600 - tailNotice.length) ++ tailNotice) :=
  ⟨by decide, merged_truncation_char_cap 3600 (jstr ("hello")) (by decide)⟩

/-- C10: for every string and every positive chunk size, `chunk` returns
pieces of length at most `n` whose in-order concatenation is exactly the
input: pagination loses and reorders no text. -/
theorem chunk_pieces_bounded_and_flatten (s : JStr) (n : Nat) (hn : 0 < n) :
    piecesBounded s n = true ∧ (chunk s n).flatten = s := by
  obtain ⟨h1, h2⟩ := chunk_spec_aux n hn s.length s (Nat.le_refl _)
  refine ⟨?_, h2⟩
  simp only [piecesBounded, List.all_eq_true, decide_eq_true_eq]
  exact h1

/-- Witness for C10 at a concrete string and chunk size 3. -/
theorem chunk_pieces_bounded_and_flatten_witness :
    (0 : Nat) < 3 ∧
    (piecesBounded (jstr ("abcdefg")) 3 = true ∧
      (chunk (jstr ("abcdefg")) 3).flatten = jstr ("abcdefg")) :=
  ⟨by decide, chunk_pieces_bounded_and_flatten (jstr ("abcdefg")) 3 (by decide)⟩

/-- Full characterization of v1's `handleFileShared` on the happy path:
metadata lookup succeeds, the extension is supported, channel and thread
resolve, the dedup key is absent, a download URL exists, download and
parse succeed.  The store gains the content entry (under `p:{now}:{fileId}`,
holding the normalized body and the filename) and the dedup flag, and
exactly one preview message is posted. -/
theorem handleFileShared_v1_happy (env : Env1) (ev : Ev1) (st : StoreV)
    (p : JStr)
    (hfid : evFileId ev ≠ [])
    (hok : env.finfo.ok = true)
    (hsup : isSupportedName env.finfo.file.name = true)
    (hch : v1Channel env ev ≠ [])
    (hth : v1Thread env ev ≠ [])
    (hdone : truthyV (lookupA st (v1DoneKey env ev)) = false)
    (hurl : v1Url env ≠ [])
    (hdl : env.downloadOk = true)
    (hp : env.parsed = Except.ok p) :
    handleFileShared_v1 env ev st =
      (setA (setA st (v1DataKey env ev)
          (StoredVal.jsonEntry (normalizeText env.maxPreview p) env.finfo.file.name))
        (v1DoneKey env ev) (StoredVal.plain (jstr ("1"))),
        [OutCall.info (evFileId ev), OutCall.download (v1Url env),
          OutCall.postMsg (v1Channel env ev) (v1Thread env ev)
            (jstr ("解析結果（プレビュー）"))
            (some (BlockView.previewB env.finfo.file.name
              (firstLine (normalizeText env.maxPreview p)) (v1DataKey env ev)))],
        true) := by
  have hch' := hch
  have hth' := hth
  rw [v1Channel] at hch'
  rw [v1Thread] at hth'
  simp only [handleFileShared_v1]
  rw [if_neg hfid]
  rw [hok]
  simp only [Bool.not_true, Bool.false_eq_true, if_false]
  rw [hsup]
  simp only [Bool.not_true, Bool.false_eq_true, if_false]
  rw [if_neg (not_or.mpr ⟨hch', hth'⟩)]
  rw [show (jstr ("done:") ++ evFileId ev ++ jstr (":") ++
      jsOrS ev.channelId (jsOrS ev.channel (resolveFromShares env.finfo.file).1) ++
      jstr (":") ++
      jsOrS ev.ts (jsOrS (resolveFromShares env.finfo.file).2 ev.eventTs)) =
    v1DoneKey env ev from rfl]
  rw [hdone]
  simp only [Bool.false_eq_true, if_false]
  rw [show jsOrS env.finfo.file.urlPrivateDownload env.finfo.file.urlPrivate =
    v1Url env from rfl]
  rw [if_neg hurl]
  rw [hdl]
  simp only [Bool.not_true, Bool.false_eq_true, if_false]
  rw [hp]
  simp only [v1DataKey, v1Channel, v1Thread]
  rfl

/-- C9 counterexample: a `file_shared` delivery for a `.png` file does
NOT yield zero outbound calls — v1's `handleFileShared` first queries
`files.info` (its only way to learn the file name) and only then returns:
the trace contains that one outbound API request. -/
theorem unsupported_extension_performs_info_call :
    handleFileShared_v1 envPng1 evShared1 [] =
      ([], [OutCall.info (jstr ("F1"))], true) ∧
    [OutCall.info (jstr ("F1"))] ≠ ([] : List OutCall) := by
  constructor
  · decide
  · decide

/-- C9 (amended): for a file whose name has an unsupported extension,
v1's `handleFileShared` performs no download, posts no message, writes
nothing to the store, and makes exactly one outbound call — the
`files.info` metadata lookup needed to learn the file name. -/
theorem unsupported_extension_no_download_no_post (env : Env1) (ev : Ev1)
    (st : StoreV)
    (hfid : evFileId ev ≠ [])
    (hok : env.finfo.ok = true)
    (hsup : isSupportedName env.finfo.file.name = false) :
    handleFileShared_v1 env ev st = (st, [OutCall.info (evFileId ev)], true) := by
  simp only [handleFileShared_v1]
  rw [if_neg hfid]
  rw [hok]
  simp only [Bool.not_true, Bool.false_eq_true, if_false]
  rw [hsup]
  simp only [Bool.not_false, if_true]

/-- Witness for C9's amended theorem at the concrete `.png` delivery. -/
theorem unsupported_extension_no_download_no_post_witness :
    evFileId evShared1 ≠ [] ∧ envPng1.finfo.ok = true ∧
    isSupportedName envPng1.finfo.file.name = false ∧
    handleFileShared_v1 envPng1 evShared1 [] =
      ([], [OutCall.info (evFileId evShared1)], true) :=
  ⟨by decide, by decide, by decide,
    unsupported_extension_no_download_no_post envPng1 evShared1 []
      (by decide) (by decide) (by decide)⟩

/-! ## Lemmas about `normalizeText` on a 3200-character body -/

theorem replaceCRLF_replicate_a : ∀ n, replaceCRLF (List.replicate n 'a') = List.replicate n 'a'
  | 0 => rfl
  | 1 => rfl
  | n + 2 => by
    rw [List.replicate_succ, List.replicate_succ]
    simp only [replaceCRLF]
    rw [if_neg (by decide), ← List.replicate_succ,
      replaceCRLF_replicate_a (n + 1), ← List.replicate_succ]

theorem replaceTab_replicate_a : ∀ n, replaceTab (List.replicate n 'a') = List.replicate n 'a'
  | 0 => rfl
  | n + 1 => by
    rw [List.replicate_succ]
    simp only [replaceTab]
    rw [if_neg (by decide), replaceTab_replicate_a n, ← List.replicate_succ]

theorem dropWhile_ws_replicate_a (n : Nat) :
    List.dropWhile isJsWS (List.replicate n 'a') = List.replicate n 'a' := by
  cases n with
  | zero => rfl
  | succ m =>
    rw [List.replicate_succ, List.dropWhile_cons, if_neg (by decide),
      ← List.replicate_succ]

theorem trimJs_replicate_a (n : Nat) :
    trimJs (List.replicate n 'a') = List.replicate n 'a' := by
  unfold trimJs
  rw [dropWhile_ws_replicate_a, List.reverse_replicate, dropWhile_ws_replicate_a,
    List.reverse_replicate]

theorem cleanOf_replicate_a (n : Nat) :
    cleanOf (List.replicate n 'a') = List.replicate n 'a' := by
  unfold cleanOf
  rw [replaceCRLF_replicate_a, replaceTab_replicate_a, trimJs_replicate_a]

theorem normalizeText_replicate_3200 :
    normalizeText 3000 (List.replicate 3200 'a') =
      List.replicate 3000 'a' ++ truncNotice := by
  unfold normalizeText
  rw [cleanOf_replicate_a]
  rw [if_neg (by rw [List.length_replicate]; omega)]
  rw [List.take_replicate]
  norm_num

/-- C7 counterexample: when the extracted body has 3200 characters and
the preview limit is 3000, the ContentEntry v1's `handleFileShared`
writes to the store does NOT retain all 3200 characters: the stored body
is the first 3000 characters plus the truncation marker — 3013
characters, not equal to the 3200-character original. -/
theorem stored_entry_truncated_at_3200 :
    lookupA (handleFileShared_v1 envLong1 evShared1 []).1
        (v1DataKey envLong1 evShared1) =
      some (StoredVal.jsonEntry (List.replicate 3000 'a' ++ truncNotice)
        (jstr ("mail.eml"))) ∧
    (List.replicate 3000 'a' ++ truncNotice).length = 3013 ∧
    List.replicate 3000 'a' ++ truncNotice ≠ List.replicate 3200 'a' ∧
    (cleanOf (List.replicate 3200 'a')).length = 3200 := by
  refine ⟨?_, ?_, ?_, ?_⟩
  · rw [handleFileShared_v1_happy envLong1 evShared1 [] (List.replicate 3200 'a')
      (by decide) (by decide) (by decide) (by decide) (by decide) (by decide)
      (by decide) (by decide) rfl]
    rw [show normalizeText envLong1.maxPreview (List.replicate 3200 'a') =
      List.replicate 3000 'a' ++ truncNotice from normalizeText_replicate_3200]
    simp only [setA, lookupA]
    rw [if_neg (by decide), if_pos trivial]
    rfl
  · rw [List.length_append, List.length_replicate]
    decide
  · intro h
    have hlen := congrArg List.length h
    rw [List.length_append, List.length_replicate, List.length_replicate] at hlen
    rw [show truncNotice.length = 13 from by decide] at hlen
    exact absurd hlen (by decide)
  · rw [cleanOf_replicate_a, List.length_replicate]

/-- C7 (amended): on the happy path, when the cleaned extracted body is
longer than the configured preview limit, the ContentEntry written to
the store holds only the first `maxPreview` characters of the cleaned
body followed by the `…(truncated)` marker — the body is capped before
storage, not retained in full. -/
theorem stored_entry_capped_with_marker (env : Env1) (ev : Ev1) (st : StoreV)
    (p : JStr)
    (hfid : evFileId ev ≠ [])
    (hok : env.finfo.ok = true)
    (hsup : isSupportedName env.finfo.file.name = true)
    (hch : v1Channel env ev ≠ [])
    (hth : v1Thread env ev ≠ [])
    (hdone : truthyV (lookupA st (v1DoneKey env ev)) = false)
    (hurl : v1Url env ≠ [])
    (hdl : env.downloadOk = true)
    (hp : env.parsed = Except.ok p)
    (hlong : env.maxPreview < (cleanOf p).length) :
    handleFileShared_v1 env ev st =
      (setA (setA st (v1DataKey env ev)
          (StoredVal.jsonEntry ((cleanOf p).take env.maxPreview ++ truncNotice)
            env.finfo.file.name))
        (v1DoneKey env ev) (StoredVal.plain (jstr ("1"))),
        [OutCall.info (evFileId ev), OutCall.download (v1Url env),
          OutCall.postMsg (v1Channel env ev) (v1Thread env ev)
            (jstr ("解析結果（プレビュー）"))
            (some (BlockView.previewB env.finfo.file.name
              (firstLine ((cleanOf p).take env.maxPreview ++ truncNotice))
              (v1DataKey env ev)))],
        true) := by
  have hnorm : normalizeText env.maxPreview p =
      (cleanOf p).take env.maxPreview ++ truncNotice := by
    simp only [normalizeText]
    rw [if_neg (by omega)]
  rw [handleFileShared_v1_happy env ev st p hfid hok hsup hch hth hdone hurl hdl hp,
    hnorm]

/-- Witness for C7's amended theorem: the 3200-character body with limit
3000 is stored capped with the marker. -/
theorem stored_entry_capped_with_marker_witness :
    envLong1.maxPreview < (cleanOf (List.replicate 3200 'a')).length ∧
    handleFileShared_v1 envLong1 evShared1 [] =
      (setA (setA [] (v1DataKey envLong1 evShared1)
          (StoredVal.jsonEntry
            ((cleanOf (List.replicate 3200 'a')).take envLong1.maxPreview ++ truncNotice)
            envLong1.finfo.file.name))
        (v1DoneKey envLong1 evShared1) (StoredVal.plain (jstr ("1"))),
        [OutCall.info (evFileId evShared1), OutCall.download (v1Url envLong1),
          OutCall.postMsg (v1Channel envLong1 evShared1) (v1Thread envLong1 evShared1)
            (jstr ("解析結果（プレビュー）"))
            (some (BlockView.previewB envLong1.finfo.file.name
              (firstLine ((cleanOf (List.replicate 3200 'a')).take envLong1.maxPreview
                ++ truncNotice))
              (v1DataKey envLong1 evShared1)))],
        true) :=
  ⟨by rw [cleanOf_replicate_a, List.length_replicate]; decide,
    stored_entry_capped_with_marker envLong1 evShared1 [] (List.replicate 3200 'a')
      (by decide) (by decide) (by decide) (by decide) (by decide) (by decide)
      (by decide) (by decide) rfl
      (by rw [cleanOf_replicate_a, List.length_replicate]; decide)⟩

/-- C3 counterexample: a request whose signature headers are missing —
on which signature verification fails — is answered 200, not 401, when
it carries an `x-slack-retry-num` header: the v1 handler short-circuits
retries before performing signature verification. -/
theorem handler_main_retry_header_bypasses_auth :
    verifySlackSignature_v1 envB1.secret reqRetry1.tsStr reqRetry1.sig
      reqRetry1.raw envB1.hmacHex = false ∧
    handler_v1 envB1 reqRetry1 [] = { status := some 200, store := [], calls := [] } := by
  constructor
  · decide
  · decide

/-- C3 (amended): in the main v1 handler, every request without a retry
header on which signature verification fails is answered HTTP 401 with
no further processing: the store is unchanged and no outbound call is
made.  (Requests with a retry header are answered 200 before
verification; the p4 variant additionally skips verification entirely
when the signing secret is unset.) -/
theorem handler_main_rejects_unverified (env : Env1) (req : Req1) (st : StoreV)
    (hr : req.hasRetryHeader = false)
    (hv : verifySlackSignature_v1 env.secret req.tsStr req.sig req.raw
      env.hmacHex = false) :
    handler_v1 env req st = { status := some 401, store := st, calls := [] } := by
  simp only [handler_v1]
  rw [hr]
  simp only [Bool.false_eq_true, if_false]
  rw [hv]
  simp only [Bool.not_false, if_true]

/-- Witness for C3's amended theorem: a wrong signature without a retry
header is answered 401 with no effects. -/
theorem handler_main_rejects_unverified_witness :
    reqBad1.hasRetryHeader = false ∧
    verifySlackSignature_v1 envB1.secret reqBad1.tsStr reqBad1.sig reqBad1.raw
      envB1.hmacHex = false ∧
    handler_v1 envB1 reqBad1 [] = { status := some 401, store := [], calls := [] } :=
  ⟨rfl, by decide, handler_main_rejects_unverified envB1 reqBad1 [] rfl (by decide)⟩

/-- C4 counterexample: in the p3 variant (the same dispatch pattern as
slack-events.js lines 896-905), an authenticated `file_shared` delivery
whose metadata lookup keeps failing makes `handleFileById` throw, and
the exception escapes the handler uncaught: no response at all is
produced — in particular not HTTP 200. -/
theorem handler_variant_file_shared_error_no_response :
    (handler_p3 envFail3 reqShared3 []).status = none ∧
    (handler_p3 envFail3 reqShared3 []).status ≠ some 200 := by
  constructor
  · decide
  · decide

/-- C4 (amended): the main v1 handler answers HTTP 200 for every
recognized delivery — an authenticated event-callback or a parsed
interactive block-actions request — regardless of the internal outcome,
including download, metadata or extraction failures (the environment is
universally quantified). -/
theorem handler_main_recognized_returns_200 (env : Env1) (req : Req1)
    (st : StoreV) (ev : Ev1) (p : BAPayload1)
    (hr : req.hasRetryHeader = false)
    (hv : verifySlackSignature_v1 env.secret req.tsStr req.sig req.raw
      env.hmacHex = true)
    (hb : req.body = Body1.eventCallback ev ∨ req.body = Body1.formBlockActions p) :
    (handler_v1 env req st).status = some 200 := by
  simp only [handler_v1]
  rw [hr]
  simp only [Bool.false_eq_true, if_false]
  rw [hv]
  simp only [Bool.not_true, Bool.false_eq_true, if_false]
  rcases hb with h | h
  all_goals rw [h]
  all_goals dsimp only
  all_goals repeat' split
  all_goals rfl

/-- Witness for C4's amended theorem: a concrete authenticated
event-callback delivery is answered 200. -/
theorem handler_main_recognized_returns_200_witness :
    reqEvent1.hasRetryHeader = false ∧
    verifySlackSignature_v1 envB1.secret reqEvent1.tsStr reqEvent1.sig
      reqEvent1.raw envB1.hmacHex = true ∧
    (handler_v1 envB1 reqEvent1 []).status = some 200 :=
  ⟨rfl, by decide,
    handler_main_recognized_returns_200 envB1 reqEvent1 [] evPlain
      { action := none, channelId := [], msgTs := [] } rfl (by decide) (Or.inl rfl)⟩

/-- C6: while the stored value under a key is unchanged, every
`show_full` action re-reads the store and renders exactly the stored
body, and every `show_preview` action renders exactly the first-line
excerpt of the stored body — for any finite sequence of toggle actions
carrying that key, so repeated toggling never drifts.  The rendered text
is a function of the store content only, never of text carried in the
interactive payload. -/
theorem toggle_renders_stored_text (st : StoreV) (key body fn ch ts : JStr)
    (acts : List BAction1)
    (hst : lookupA st key = some (StoredVal.jsonEntry body fn))
    (hch : ch ≠ []) (hts : ts ≠ [])
    (hacts : ∀ a ∈ acts, a.value = key ∧
      (a.actionId = jstr ("show_full") ∨ a.actionId = jstr ("show_preview"))) :
    acts.map (fun a => handleBlockActions_v1 st
        { action := some a, channelId := ch, msgTs := ts }) =
    acts.map (fun a =>
      if a.actionId = jstr ("show_full") then
        [OutCall.updateMsg ch ts (jstr ("解析結果（全文）"))
          (BlockView.fullB fn body a.value)]
      else
        [OutCall.updateMsg ch ts (jstr ("解析結果（プレビュー）"))
          (BlockView.previewB fn (firstLine body) a.value)]) := by
  apply List.map_congr_left
  intro a ha
  obtain ⟨hv, hid⟩ := hacts a ha
  simp only [handleBlockActions_v1]
  rw [if_neg (not_or.mpr ⟨hch, hts⟩)]
  rw [hv, hst]
  dsimp only
  rw [if_neg (by simp)]
  dsimp only [parseStored]
  rcases hid with hfull | hprev
  · rw [if_pos hfull, if_pos hfull]
  · have hne : ¬(a.actionId = jstr ("show_full")) := by
      rw [hprev]
      decide
    rw [if_neg hne, if_pos hprev, if_neg hne]

/-- Witness for C6: a full → preview → full toggle sequence over a
concrete stored entry renders the stored body / its excerpt each time. -/
theorem toggle_renders_stored_text_witness :
    actsToggle.map (fun a => handleBlockActions_v1 stToggle
        { action := some a, channelId := jstr ("C9"), msgTs := jstr ("9.9") }) =
    actsToggle.map (fun a =>
      if a.actionId = jstr ("show_full") then
        [OutCall.updateMsg (jstr ("C9")) (jstr ("9.9")) (jstr ("解析結果（全文）"))
          (BlockView.fullB (jstr ("m.eml")) (jstr ("line1\nline2")) a.value)]
      else
        [OutCall.updateMsg (jstr ("C9")) (jstr ("9.9")) (jstr ("解析結果（プレビュー）"))
          (BlockView.previewB (jstr ("m.eml")) (firstLine (jstr ("line1\nline2")))
            a.value)]) :=
  toggle_renders_stored_text stToggle (jstr ("k1")) (jstr ("line1\nline2"))
    (jstr ("m.eml")) (jstr ("C9")) (jstr ("9.9")) actsToggle
    (by decide) (by decide) (by decide) (by decide)

end EmlBot
